import Mathlib

/-
Verification development for the OCR invoice extraction service (src/main.py).

The service receives an invoice image, runs OCR (an external black box that
turns the image into a text string), extracts structured fields from the
recognized text with a family of regular-expression rules, and appends the
result to two spreadsheet tabs.  The shallow embedding below models:

  * the Python regular-expression fragment actually used by main.py
    (character classes, greedy and lazy quantifiers over single-character
    classes, alternation, optional characters, capture groups, lookahead,
    the MULTILINE anchors and the plain end anchor) as a backtracking
    matcher in continuation-passing style;
  * `safe_search` (main.py lines 125-132);
  * every extraction rule of `extract_invoice_data` (lines 135-195),
    including the post-processing `str.replace` / `re.sub` cleanups;
  * the item-row `re.findall` loop (lines 166-186);
  * the sheet-append policy and response of the endpoint (lines 198-248),
    with the image decode and the persistence sink abstracted as inputs
    (the OCR engine and the Sheets API are external collaborators).

Python `float` is modelled over ℚ; the numeric captures of this program are
always strings of digits and dots, and the model of `float` is faithful on
exactly that shape (anything else is rejected, modelling ValueError).
-/

/-- Python ASCII whitespace class, the characters matched by the regex class
backslash-s and stripped by `str.strip()`. -/
def isSpacePy (c : Char) : Bool :=
  c == ' ' || c == '\t' || c == '\n' || c == '\r' || c == '\x0b' || c == '\x0c'

/-- ASCII lower-casing, as used by case-insensitive matching on the ASCII
patterns of main.py. -/
def lowerc (c : Char) : Char :=
  if c.isUpper then Char.ofNat (c.toNat + 32) else c

/-- Case-insensitive single-character comparison (re.IGNORECASE). -/
def chCI (ch : Char) : Char → Bool := fun c => lowerc c = lowerc ch

/-- The class of the regex `[\d.]`. -/
def dotdig (c : Char) : Bool := c == '.' || c.isDigit

/-- The class of `.` under re.DOTALL: any character. -/
def anyDot (_ : Char) : Bool := true

/-- The class of `.` without re.DOTALL: any character except a newline. -/
def anyNoNl (c : Char) : Bool := !(c == '\n')

/-- `str.strip()`: drop Python whitespace from both ends. -/
def pyStrip (l : List Char) : List Char :=
  ((l.dropWhile isSpacePy).reverse.dropWhile isSpacePy).reverse

/-- `str.replace(pat, repl)` on character lists: replace every
non-overlapping occurrence, scanning left to right.  The fuel is the length
of the string; every step consumes at least one character. -/
def strReplAux (pat repl : List Char) : Nat → List Char → List Char
  | 0, s => s
  | _ + 1, [] => []
  | fuel + 1, ch :: rest =>
    match pat, pat.isPrefixOf (ch :: rest) with
    | _ :: _, true => repl ++ strReplAux pat repl fuel ((ch :: rest).drop pat.length)
    | _, _ => ch :: strReplAux pat repl fuel rest

/-- `str.replace(pat, repl)` (all occurrences). -/
def strRepl (pat repl s : List Char) : List Char :=
  strReplAux pat repl s.length s

/-- Decimal value of a digit string. -/
def digitsVal (l : List Char) : Nat :=
  l.foldl (fun a c => a * 10 + (c.toNat - 48)) 0

/-- Python `float()` on the strings this program ever casts: the captures of
`[\d.]+` (digits and dots).  Succeeds exactly when the string is non-empty,
contains at most one dot and at least one digit; any other string is
rejected, modelling the ValueError that `safe_search` / the item loop catch. -/
def pyFloatDD (l : List Char) : Option ℚ :=
  if l = [] then none
  else if !(l.all (fun c => dotdig c)) then none
  else if 1 < l.count '.' then none
  else if !(l.any (fun c => c.isDigit)) then none
  else
    some (mkRat (digitsVal (l.filter (fun c => !(c == '.'))))
      (10 ^ ((l.dropWhile (fun c => !(c == '.'))).drop 1).length))

/-- Python `int()` applied to a float: truncation toward zero, which on a
reduced rational is truncating division of numerator by denominator. -/
def truncQ (q : ℚ) : ℤ :=
  Int.tdiv q.num q.den

/-- Regular expressions, restricted to the fragment used by main.py.  All
quantifiers in the program quantify single-character classes, so the star
constructors take a class directly; this keeps the matcher terminating by
construction. -/
inductive RE where
  /-- empty pattern -/
  | eps
  /-- one character of a class -/
  | cls (p : Char → Bool)
  /-- concatenation -/
  | cat (a b : RE)
  /-- ordered alternation with backtracking -/
  | alt (a b : RE)
  /-- greedy star over a class -/
  | starG (p : Char → Bool)
  /-- lazy star over a class -/
  | starL (p : Char → Bool)
  /-- greedy optional single character -/
  | opt (p : Char → Bool)
  /-- numbered capture group -/
  | group (n : Nat) (r : RE)
  /-- zero-width lookahead -/
  | look (r : RE)
  /-- `^` under re.MULTILINE: start of string or just after a newline -/
  | bol
  /-- `$` without re.MULTILINE: end of string or before one final newline -/
  | eolS
  /-- `$` under re.MULTILINE: end of string or before any newline -/
  | eolM

/-- Captured groups of one match: group number paired with captured text. -/
abbrev Caps := List (Nat × List Char)

/-- Result of a matcher run: the captures, the unconsumed suffix and the
character just before it (the context needed by the `^` anchor). -/
abbrev MOut := Option (Caps × List Char × Option Char)

/-- Matcher continuation: receives the unconsumed suffix, the previous
character and the captures so far. -/
abbrev K := List Char → Option Char → Caps → MOut

/-- Greedy star over a class, with backtracking into the continuation. -/
def runStarG (p : Char → Bool) : List Char → Option Char → Caps → K → MOut
  | [], pv, caps, k => k [] pv caps
  | ch :: rest, pv, caps, k =>
    if p ch then
      (runStarG p rest (some ch) caps k).orElse (fun _ => k (ch :: rest) pv caps)
    else k (ch :: rest) pv caps

/-- Lazy star over a class: try the continuation first, then consume. -/
def runStarL (p : Char → Bool) : List Char → Option Char → Caps → K → MOut
  | s, pv, caps, k =>
    (k s pv caps).orElse (fun _ =>
      match s with
      | [] => none
      | ch :: rest => if p ch then runStarL p rest (some ch) caps k else none)

/-- The backtracking matcher in continuation-passing style, anchored at the
current position.  `pv` is the character immediately before the current
position (`none` at the start of the text). -/
def mrun : RE → List Char → Option Char → Caps → K → MOut
  | .eps, s, pv, caps, k => k s pv caps
  | .cls p, s, _, caps, k =>
    match s with
    | [] => none
    | ch :: rest => if p ch then k rest (some ch) caps else none
  | .cat a b, s, pv, caps, k =>
    mrun a s pv caps (fun s2 pv2 c2 => mrun b s2 pv2 c2 k)
  | .alt a b, s, pv, caps, k =>
    (mrun a s pv caps k).orElse (fun _ => mrun b s pv caps k)
  | .starG p, s, pv, caps, k => runStarG p s pv caps k
  | .starL p, s, pv, caps, k => runStarL p s pv caps k
  | .opt p, s, pv, caps, k =>
    match s with
    | [] => k [] pv caps
    | ch :: rest =>
      if p ch then (k rest (some ch) caps).orElse (fun _ => k (ch :: rest) pv caps)
      else k (ch :: rest) pv caps
  | .group n r, s, pv, caps, k =>
    mrun r s pv caps (fun s2 pv2 c2 =>
      k s2 pv2 ((n, s.take (s.length - s2.length)) :: c2))
  | .look r, s, pv, caps, k =>
    match mrun r s pv caps (fun s2 pv2 c2 => some (c2, s2, pv2)) with
    | some _ => k s pv caps
    | none => none
  | .bol, s, pv, caps, k =>
    match pv with
    | none => k s pv caps
    | some c => if c = '\n' then k s pv caps else none
  | .eolS, s, pv, caps, k =>
    if s = [] ∨ s = ['\n'] then k s pv caps else none
  | .eolM, s, pv, caps, k =>
    match s with
    | [] => k s pv caps
    | c :: _ => if c = '\n' then k s pv caps else none

/-- `re.search`: try the pattern at each position, leftmost match wins. -/
def searchAux (r : RE) : List Char → Option Char → MOut
  | s, pv =>
    match mrun r s pv [] (fun s2 pv2 c2 => some (c2, s2, pv2)) with
    | some out => some out
    | none =>
      match s with
      | [] => none
      | ch :: rest => searchAux r rest (some ch)

/-- `re.search` over a string, returning the captures of the match. -/
def research (r : RE) (t : String) : Option Caps :=
  (searchAux r t.data none).map (fun out => out.1)

/-- `match.group(1)` of a `re.search`, as the program uses it. -/
def searchGroup1 (r : RE) (t : String) : Option (List Char) :=
  (research r t).bind (fun caps => List.lookup 1 caps)

/-- `re.findall`: non-overlapping matches scanning left to right, each
subsequent scan starting at the end of the previous match.  The fuel is the
text length plus one; every successful iteration either consumes text or
advances one character. -/
def findAllAux (r : RE) : Nat → List Char → Option Char → List Caps
  | 0, _, _ => []
  | fuel + 1, s, pv =>
    match mrun r s pv [] (fun s2 pv2 c2 => some (c2, s2, pv2)) with
    | some (caps, s2, pv2) =>
      if s2.length < s.length then caps :: findAllAux r fuel s2 pv2
      else
        match s with
        | [] => [caps]
        | ch :: rest => caps :: findAllAux r fuel rest (some ch)
    | none =>
      match s with
      | [] => []
      | ch :: rest => findAllAux r fuel rest (some ch)

/-- `re.findall` over a string. -/
def findAll (r : RE) (t : String) : List Caps :=
  findAllAux r (t.data.length + 1) t.data none

/-- `re.sub(pattern, str-empty, text)`: delete every non-overlapping match. -/
def reSubAux (r : RE) : Nat → List Char → Option Char → List Char
  | 0, s, _ => s
  | fuel + 1, s, pv =>
    match mrun r s pv [] (fun s2 pv2 c2 => some (c2, s2, pv2)) with
    | some (_, s2, pv2) =>
      if s2.length < s.length then reSubAux r fuel s2 pv2
      else
        match s with
        | [] => []
        | ch :: rest => ch :: reSubAux r fuel rest (some ch)
    | none =>
      match s with
      | [] => []
      | ch :: rest => ch :: reSubAux r fuel rest (some ch)

/-- `re.sub` with the empty replacement, over a character list. -/
def reSubEmpty (r : RE) (l : List Char) : List Char :=
  reSubAux r (l.length + 1) l none

/-- Sequence a list of patterns. -/
def rseq (l : List RE) : RE := l.foldr RE.cat RE.eps

/-- Case-insensitive literal (re.IGNORECASE). -/
def litCI (s : String) : RE :=
  rseq (s.data.map (fun ch => RE.cls (chCI ch)))

/-- Ordered alternation of a list of patterns. -/
def altL : List RE → RE
  | [] => RE.cls (fun _ => false)
  | [r] => r
  | r :: rest => RE.alt r (altL rest)

/-- Greedy plus over a class. -/
def plusG (p : Char → Bool) : RE := RE.cat (RE.cls p) (RE.starG p)

/-- Lazy plus over a class. -/
def plusL (p : Char → Bool) : RE := RE.cat (RE.cls p) (RE.starL p)

/-- main.py line 135: the Sales_Invoice_No rule, pattern `No:\s*(\d+)`,
flags IGNORECASE and DOTALL. -/
def reInvNo : RE :=
  rseq [litCI "No:", RE.starG isSpacePy, RE.group 1 (plusG Char.isDigit)]

/-- main.py line 138: the Customer_Name rule, pattern
`Customer:\s*(.+?)(?=\n(?:Date|TAX NUMBER|Al-Muqabalein|No|$))`, flags
IGNORECASE and DOTALL (so `.` matches newlines and `$` is the plain end
anchor). -/
def reCustomer : RE :=
  rseq [litCI "Customer:", RE.starG isSpacePy,
    RE.group 1 (plusL anyDot),
    RE.look (rseq [RE.cls (fun c => c == '\n'),
      altL [litCI "Date", litCI "TAX NUMBER", litCI "Al-Muqabalein",
        litCI "No", RE.eolS]])]

/-- main.py line 142: the Date rule, pattern `Date:\s*(\d{2}/\d{2}/\d{4})`. -/
def reDate : RE :=
  rseq [litCI "Date:", RE.starG isSpacePy,
    RE.group 1 (rseq [RE.cls Char.isDigit, RE.cls Char.isDigit,
      RE.cls (fun c => c == '/'), RE.cls Char.isDigit, RE.cls Char.isDigit,
      RE.cls (fun c => c == '/'), RE.cls Char.isDigit, RE.cls Char.isDigit,
      RE.cls Char.isDigit, RE.cls Char.isDigit])]

/-- main.py line 144: the TAX_NUMBER rule, pattern `TAX NUMBER:\s*(\d+)`. -/
def reTax : RE :=
  rseq [litCI "TAX NUMBER:", RE.starG isSpacePy, RE.group 1 (plusG Char.isDigit)]

/-- main.py line 147: the Company_Name search, pattern
`(BREAD BASKET.*COMPANY.*)` with IGNORECASE only (no DOTALL, so `.` stays on
one line). -/
def reCompany : RE :=
  RE.group 1 (rseq [litCI "BREAD BASKET", RE.starG anyNoNl,
    litCI "COMPANY", RE.starG anyNoNl])

/-- main.py line 153: the Company_Address_Contact search, pattern
`BREAD BASKET.*?COMPANY.*?\n(.+?)(?=\n(?:Sales Invoice No|No|Item No|QTY|No\s*Item))`
with IGNORECASE and DOTALL. -/
def reContact : RE :=
  rseq [litCI "BREAD BASKET", RE.starL anyDot, litCI "COMPANY",
    RE.starL anyDot, RE.cls (fun c => c == '\n'),
    RE.group 1 (plusL anyDot),
    RE.look (rseq [RE.cls (fun c => c == '\n'),
      altL [litCI "Sales Invoice No", litCI "No", litCI "Item No",
        litCI "QTY", rseq [litCI "No", RE.starG isSpacePy, litCI "Item"]]])]

/-- main.py line 157: the cleanup alternation passed to `re.sub` on the
contact block, `WO \\ |AlMugabalein, Arman\. Jo a|ad a|infobreadbasteteo con`
with IGNORECASE. -/
def reContactJunk : RE :=
  altL [litCI "WO \\ ", litCI "AlMugabalein, Arman. Jo a", litCI "ad a",
    litCI "infobreadbasteteo con"]

/-- main.py lines 166-170: the item-row pattern
`^\s*(\d+)\s+(.+?)\s+([\d.]+)\s+([A-Za-z]+)\s+([\d.]+)\s+([\d.]+)$`, flag
MULTILINE (anchors are per-line; `.` does not match newlines; no
IGNORECASE, but the pattern has no cased literal). -/
def reItem : RE :=
  rseq [RE.bol, RE.starG isSpacePy, RE.group 1 (plusG Char.isDigit),
    plusG isSpacePy, RE.group 2 (plusL anyNoNl), plusG isSpacePy,
    RE.group 3 (plusG dotdig), plusG isSpacePy,
    RE.group 4 (plusG Char.isAlpha), plusG isSpacePy,
    RE.group 5 (plusG dotdig), plusG isSpacePy,
    RE.group 6 (plusG dotdig), RE.eolM]

/-- main.py line 189: the Total_Summary rule, pattern
`(?:Total|Tota|otal)\s*~?\s*([\d.]+)` (note: no separator colon is allowed
between the label and the number). -/
def reTotal : RE :=
  rseq [altL [litCI "Total", litCI "Tota", litCI "otal"],
    RE.starG isSpacePy, RE.opt (fun c => c == '~'), RE.starG isSpacePy,
    RE.group 1 (plusG dotdig)]

/-- main.py line 190: the Discount rule, pattern `Discount\s*([\d.]+)`. -/
def reDiscount : RE :=
  rseq [litCI "Discount", RE.starG isSpacePy, RE.group 1 (plusG dotdig)]

/-- main.py line 191: the Net_Amount rule, pattern
`(?:Net|Nets?|Sone)\s*\|\s*([\d.]+)`. -/
def reNet : RE :=
  rseq [altL [litCI "Net", rseq [litCI "Net", RE.opt (chCI 's')], litCI "Sone"],
    RE.starG isSpacePy, RE.cls (fun c => c == '|'), RE.starG isSpacePy,
    RE.group 1 (plusG dotdig)]

/-- main.py line 192: the Sales_Tax rule, pattern `Sales tax\s*\|\s*([\d.]+)`. -/
def reSalesTax : RE :=
  rseq [litCI "Sales tax", RE.starG isSpacePy, RE.cls (fun c => c == '|'),
    RE.starG isSpacePy, RE.group 1 (plusG dotdig)]

/-- main.py line 195: the Note rule, pattern `Note\s*(\d+)`. -/
def reNote : RE :=
  rseq [litCI "Note", RE.starG isSpacePy, RE.group 1 (plusG Char.isDigit)]

/-- main.py lines 125-132: `safe_search(pattern, text, default, cast_func)`.
If the pattern matches, the coercion is applied to `group(1).strip()`; a
failed coercion (ValueError) and a missing group (IndexError) fall through
to the default; no match returns the default. -/
def safe_search {α : Type} (pat : RE) (text : String) (d : α)
    (cast : List Char → Option α) : α :=
  match searchGroup1 pat text with
  | none => d
  | some g => (cast (pyStrip g)).getD d

/-- The coercion `cast_func=str`: total on strings. -/
def castStrCL : List Char → Option String := fun l => some (String.mk l)

/-- One extracted line item, main.py lines 175-182. -/
structure Item where
  Item_No : String
  Item_Name : String
  Qty : ℤ
  Unit : String
  Price : ℚ
  Total_Price : ℚ
deriving DecidableEq

/-- The full extracted record, with the fields and sentinel defaults of
main.py lines 135-195. -/
structure InvoiceRecord where
  Sales_Invoice_No : String
  Customer_Name : String
  Date : String
  TAX_NUMBER : String
  Company_Name : String
  Company_Address_Contact : String
  Items : List Item
  Total_Summary : ℚ
  Discount : ℚ
  Net_Amount : ℚ
  Sales_Tax : ℚ
  Note : String
deriving DecidableEq

/-- main.py lines 173-186: build one item from the six captures of an
item-row match; any ValueError in `int(float(..))` or `float(..)` skips the
row (returns none). -/
def parseItemRow (caps : Caps) : Option Item :=
  match List.lookup 1 caps, List.lookup 2 caps, List.lookup 3 caps,
      List.lookup 4 caps, List.lookup 5 caps, List.lookup 6 caps with
  | some g1, some g2, some g3, some g4, some g5, some g6 =>
    match pyFloatDD (pyStrip g3), pyFloatDD (pyStrip g5), pyFloatDD (pyStrip g6) with
    | some q3, some q5, some q6 =>
      some { Item_No := String.mk (pyStrip g1),
             Item_Name := String.mk (pyStrip (strRepl ['"'] [] g2)),
             Qty := truncQ q3,
             Unit := String.mk (pyStrip g4),
             Price := q5,
             Total_Price := q6 }
    | _, _, _ => none
  | _, _, _, _, _, _ => none

/-- main.py line 140: strip the OCR artifact from the customer name and
re-strip. -/
def cleanCustomer (s : String) : String :=
  String.mk (pyStrip (strRepl ("s) Cle al Â¢ 6 8 ae".data) [] s.data))

/-- main.py line 150: strip OCR artifacts from the company name and
re-strip. -/
def cleanCompany (s : String) : String :=
  String.mk (pyStrip (strRepl ['"'] []
    (strRepl ['='] [] (strRepl ("% whistle".data) [] s.data))))

/-- main.py lines 147-148: the raw company name, `group(1).strip()` when the
pattern matches, else the sentinel. -/
def companyNameRaw (t : String) : String :=
  match searchGroup1 reCompany t with
  | some g => String.mk (pyStrip g)
  | none => "N/A"

/-- main.py lines 153-159: the contact block, when matched: newlines
replaced by spaces, stripped, junk substrings deleted by `re.sub`, stripped
again; else the sentinel. -/
def contactRaw (t : String) : String :=
  match searchGroup1 reContact t with
  | some g =>
    String.mk (pyStrip (reSubEmpty reContactJunk
      (pyStrip (strRepl ['\n'] [' '] g))))
  | none => "N/A"

/-- main.py lines 122-195: the pure extraction core of
`extract_invoice_data`, from the recognized OCR text to a structured
record. -/
def extractInvoice (raw_text : String) : InvoiceRecord :=
  { Sales_Invoice_No := safe_search reInvNo raw_text "N/A" castStrCL
    Customer_Name := cleanCustomer (safe_search reCustomer raw_text "N/A" castStrCL)
    Date := safe_search reDate raw_text "N/A" castStrCL
    TAX_NUMBER := safe_search reTax raw_text "N/A" castStrCL
    Company_Name := cleanCompany (companyNameRaw raw_text)
    Company_Address_Contact := contactRaw raw_text
    Items := (findAll reItem raw_text).filterMap parseItemRow
    Total_Summary := safe_search reTotal raw_text 0 pyFloatDD
    Discount := safe_search reDiscount raw_text 0 pyFloatDD
    Net_Amount := safe_search reNet raw_text 0 pyFloatDD
    Sales_Tax := safe_search reSalesTax raw_text 0 pyFloatDD
    Note := safe_search reNote raw_text "N/A" castStrCL }

/-- The record produced when every rule fails: every string field is the
sentinel and every numeric summary field is zero. -/
def defaultRecord : InvoiceRecord :=
  { Sales_Invoice_No := "N/A", Customer_Name := "N/A", Date := "N/A",
    TAX_NUMBER := "N/A", Company_Name := "N/A",
    Company_Address_Contact := "N/A", Items := [],
    Total_Summary := 0, Discount := 0, Net_Amount := 0, Sales_Tax := 0,
    Note := "N/A" }

/-- A value sent to the persistence sink (a spreadsheet cell). -/
inductive PyVal where
  | s (v : String)
  | q (v : ℚ)
  | z (v : ℤ)
deriving DecidableEq

/-- main.py lines 202-214: the Sheet1 header row. -/
def sheet1Row (r : InvoiceRecord) : List PyVal :=
  [.s r.Sales_Invoice_No, .s r.Customer_Name, .s r.Date, .s r.TAX_NUMBER,
   .s r.Company_Name, .s r.Company_Address_Contact, .q r.Total_Summary,
   .q r.Discount, .q r.Net_Amount, .q r.Sales_Tax, .s r.Note]

/-- main.py lines 226-234: one Sheet2 item row. -/
def sheet2Row (r : InvoiceRecord) (it : Item) : List PyVal :=
  [.s r.Sales_Invoice_No, .s it.Item_No, .s it.Item_Name, .z it.Qty,
   .s it.Unit, .q it.Price, .q it.Total_Price]

/-- main.py lines 215-237: the appends sent to the sink for a record, in
order.  The Sheet1 header row is sent only when the invoice number is not
the sentinel; one Sheet2 row is sent per extracted item, unconditionally. -/
def plannedAppends (r : InvoiceRecord) : List (String × List PyVal) :=
  (if r.Sales_Invoice_No = "N/A" then [] else [("Sheet1", sheet1Row r)])
    ++ r.Items.map (fun it => ("Sheet2", sheet2Row r it))

/-- Errors that abort a request with an HTTP 500, main.py lines 41, 67, 70
and 242-248. -/
inductive FatalError where
  /-- the uploaded bytes could not be decoded as an image (Image.open) -/
  | decodeError
  /-- a Google-Sheets authentication or append call failed -/
  | sheetError
deriving DecidableEq

/-- main.py line 240: the success response of the endpoint. -/
structure ApiResponse where
  status : String
  data : InvoiceRecord
  sheet_updated : Bool
deriving DecidableEq

/-- main.py lines 95-248: the endpoint.  `decoded` is the result of image
decode plus OCR (an external black box, deterministic by assumption):
`none` when `Image.open` fails, otherwise the recognized text.  `sinkOk`
abstracts the persistence sink: when false, any attempted sheet append
raises and the request aborts with an HTTP 500. -/
def extract_invoice_data (decoded : Option String) (sinkOk : Bool) :
    Except FatalError ApiResponse :=
  match decoded with
  | none => Except.error FatalError.decodeError
  | some t =>
    let r := extractInvoice t
    if sinkOk = false ∧ plannedAppends r ≠ [] then
      Except.error FatalError.sheetError
    else
      Except.ok { status := "success", data := r, sheet_updated := true }

/-- Modelled from the spec: the Row Assembler of spec section 4.4 is not part
of src/main.py (the source extracts items with a whole-page regex instead of
cell geometry), so its fixed row-height constant is modelled from the spec's
words; the spec fixes no numeric value, so a representative one is chosen. -/
def ROW_HEIGHT : Nat := 10

/-- Modelled from the spec: a cell bounding box reduced to the coordinates
the Row Assembler uses (x for in-row ordering, y for row grouping). -/
structure CellBox where
  x : Nat
  y : Nat
deriving DecidableEq

/-- Modelled from the spec: the row-key of a cell, obtained by
integer-dividing its y-coordinate by the fixed row-height constant
(spec section 4.4, "quantization"). -/
def rowKey (c : CellBox) : Nat := c.y / ROW_HEIGHT

/-- Left-to-right order on cells: ascending x-coordinate. -/
def cellLe (a b : CellBox) : Prop := a.x ≤ b.x

instance : DecidableRel cellLe := fun a b => Nat.decLe a.x b.x

instance : IsTotal CellBox cellLe := ⟨fun a b => Nat.le_total a.x b.x⟩

instance : IsTrans CellBox cellLe := ⟨fun _ _ _ => Nat.le_trans⟩

/-- Modelled from the spec (section 4.4): group cells by row-key, sort each
group by ascending x-coordinate, sort the groups by ascending row-key. -/
def assembleRows (cells : List CellBox) : List (Nat × List CellBox) :=
  (((cells.map rowKey).dedup).insertionSort (fun a b => a ≤ b)).map
    (fun k => (k, (cells.filter (fun c => rowKey c == k)).insertionSort cellLe))

/-- The end-to-end scenario text of the spec (section 8), with the colon
separators it writes: `Total: 55.00`. -/
def t_C2 : String :=
  "Invoice No: 4021\nCustomer: Acme Co\nDate: 01/02/2024\nTotal: 55.00"

/-- The same scenario with the total separator the summary rule actually
accepts (no colon). -/
def t_C2b : String :=
  "Invoice No: 4021\nCustomer: Acme Co\nDate: 01/02/2024\nTotal 55.00"

/-- A recognized text with one well-formed item row and one row whose
quantity cell is not numeric (two dots), which `float` rejects. -/
def t_C5 : String :=
  "1 Cheese Burger 2 pcs 3.50 7.00\n2 Bad Item 1.2.3 pcs 4.00 8.00"

/-- Case analysis on `safe_search` with the string coercion: the result is
the default or the stripped first capture of the leftmost match. -/
theorem safe_search_str_cases (pat : RE) (t : String) (d : String) :
    safe_search pat t d castStrCL = d ∨
    ∃ g, searchGroup1 pat t = some g ∧
      safe_search pat t d castStrCL = String.mk (pyStrip g) := by
  unfold safe_search
  cases h : searchGroup1 pat t with
  | none => exact Or.inl rfl
  | some g => exact Or.inr ⟨g, rfl, rfl⟩

/-- Case analysis on `safe_search` with the float coercion: the result is
the default, or the coerced stripped capture when the coercion succeeds. -/
theorem safe_search_num_cases (pat : RE) (t : String) (d : ℚ) :
    safe_search pat t d pyFloatDD = d ∨
    ∃ g q, searchGroup1 pat t = some g ∧ pyFloatDD (pyStrip g) = some q ∧
      safe_search pat t d pyFloatDD = q := by
  unfold safe_search
  cases h : searchGroup1 pat t with
  | none => exact Or.inl rfl
  | some g =>
    cases hq : pyFloatDD (pyStrip g) with
    | none =>
      exact Or.inl (by show (pyFloatDD (pyStrip g)).getD d = d; rw [hq]; rfl)
    | some q =>
      exact Or.inr ⟨g, q, rfl, hq,
        by show (pyFloatDD (pyStrip g)).getD d = q; rw [hq]; rfl⟩


/-- C1: for every recognized text, the extracted record carries every schema
field, each equal to an extracted value (the stripped first capture of its
rule's leftmost match, after the rule's cleanup and coercion) or to its
sentinel default: the string "N/A" for string fields, zero for the numeric
summary fields, and the best-effort parsed list for Items — no field is
ever omitted. -/
theorem C1_every_field_present_or_default (t : String) :
    ((extractInvoice t).Sales_Invoice_No = "N/A" ∨
      ∃ g, searchGroup1 reInvNo t = some g ∧
        (extractInvoice t).Sales_Invoice_No = String.mk (pyStrip g))
  ∧ ((extractInvoice t).Customer_Name = "N/A" ∨
      ∃ g, searchGroup1 reCustomer t = some g ∧
        (extractInvoice t).Customer_Name = cleanCustomer (String.mk (pyStrip g)))
  ∧ ((extractInvoice t).Date = "N/A" ∨
      ∃ g, searchGroup1 reDate t = some g ∧
        (extractInvoice t).Date = String.mk (pyStrip g))
  ∧ ((extractInvoice t).TAX_NUMBER = "N/A" ∨
      ∃ g, searchGroup1 reTax t = some g ∧
        (extractInvoice t).TAX_NUMBER = String.mk (pyStrip g))
  ∧ ((extractInvoice t).Company_Name = "N/A" ∨
      ∃ g, searchGroup1 reCompany t = some g ∧
        (extractInvoice t).Company_Name = cleanCompany (String.mk (pyStrip g)))
  ∧ ((extractInvoice t).Company_Address_Contact = "N/A" ∨
      ∃ g, searchGroup1 reContact t = some g ∧
        (extractInvoice t).Company_Address_Contact =
          String.mk (pyStrip (reSubEmpty reContactJunk
            (pyStrip (strRepl ['\n'] [' '] g)))))
  ∧ (extractInvoice t).Items = (findAll reItem t).filterMap parseItemRow
  ∧ ((extractInvoice t).Total_Summary = 0 ∨
      ∃ g q, searchGroup1 reTotal t = some g ∧ pyFloatDD (pyStrip g) = some q ∧
        (extractInvoice t).Total_Summary = q)
  ∧ ((extractInvoice t).Discount = 0 ∨
      ∃ g q, searchGroup1 reDiscount t = some g ∧ pyFloatDD (pyStrip g) = some q ∧
        (extractInvoice t).Discount = q)
  ∧ ((extractInvoice t).Net_Amount = 0 ∨
      ∃ g q, searchGroup1 reNet t = some g ∧ pyFloatDD (pyStrip g) = some q ∧
        (extractInvoice t).Net_Amount = q)
  ∧ ((extractInvoice t).Sales_Tax = 0 ∨
      ∃ g q, searchGroup1 reSalesTax t = some g ∧ pyFloatDD (pyStrip g) = some q ∧
        (extractInvoice t).Sales_Tax = q)
  ∧ ((extractInvoice t).Note = "N/A" ∨
      ∃ g, searchGroup1 reNote t = some g ∧
        (extractInvoice t).Note = String.mk (pyStrip g)) := by
  refine ⟨safe_search_str_cases reInvNo t "N/A", ?_,
    safe_search_str_cases reDate t "N/A", safe_search_str_cases reTax t "N/A",
    ?_, ?_, rfl, safe_search_num_cases reTotal t 0,
    safe_search_num_cases reDiscount t 0, safe_search_num_cases reNet t 0,
    safe_search_num_cases reSalesTax t 0, safe_search_str_cases reNote t "N/A"⟩
  · rcases safe_search_str_cases reCustomer t "N/A" with h | ⟨g, hg, hv⟩
    · left
      show cleanCustomer (safe_search reCustomer t "N/A" castStrCL) = "N/A"
      rw [h]; decide
    · right
      refine ⟨g, hg, ?_⟩
      show cleanCustomer (safe_search reCustomer t "N/A" castStrCL) = _
      rw [hv]
  · cases h : searchGroup1 reCompany t with
    | none =>
      left
      show cleanCompany (companyNameRaw t) = "N/A"
      unfold companyNameRaw
      rw [h]; decide
    | some g =>
      right
      refine ⟨g, rfl, ?_⟩
      show cleanCompany (companyNameRaw t) = _
      unfold companyNameRaw
      rw [h]
  · cases h : searchGroup1 reContact t with
    | none =>
      left
      show contactRaw t = "N/A"
      unfold contactRaw
      rw [h]
    | some g =>
      right
      refine ⟨g, rfl, ?_⟩
      show contactRaw t = _
      unfold contactRaw
      rw [h]

/-- C3: every field rule is total — for any pattern, text, default and
coercion, `safe_search` returns the default when the pattern has no match,
returns the default when the match's stripped first capture is rejected by
the coercion, and returns the coerced value when the coercion succeeds; it
has no other outcome (in the source, ValueError and IndexError are caught
and fall through to the default, so no exception escapes). -/
theorem C3_safe_search_total {α : Type} (pat : RE) (t : String) (d : α)
    (cast : List Char → Option α) :
    (searchGroup1 pat t = none → safe_search pat t d cast = d)
  ∧ (∀ g, searchGroup1 pat t = some g → cast (pyStrip g) = none →
      safe_search pat t d cast = d)
  ∧ (∀ g v, searchGroup1 pat t = some g → cast (pyStrip g) = some v →
      safe_search pat t d cast = v) := by
  refine ⟨fun h => ?_, fun g h hc => ?_, fun g v h hc => ?_⟩ <;>
    unfold safe_search <;> rw [h]
  · show (cast (pyStrip g)).getD d = d
    rw [hc]; rfl
  · show (cast (pyStrip g)).getD d = v
    rw [hc]; rfl

/-- Witness for C3 at a concrete rule and text: the Total rule on
"... Total 55.00" coerces the capture "55.00" to the rational 55. -/
theorem C3_witness : safe_search reTotal t_C2b (0 : ℚ) pyFloatDD = 55 :=
  (C3_safe_search_total reTotal t_C2b 0 pyFloatDD).2.2 ("55.00".data) 55
    (by decide) (by decide)

/-- C2 counterexample: on the spec's own end-to-end text (with its colon
after "Total"), the extraction does NOT yield the claimed quadruple — the
invoice number, customer and date come out as claimed, but Total_Summary is
the default 0, not 55, because the summary pattern
`(?:Total|Tota|otal)\s*~?\s*([\d.]+)` admits no colon after the label. -/
theorem C2_counterexample :
    ¬((extractInvoice t_C2).Sales_Invoice_No = "4021"
      ∧ (extractInvoice t_C2).Customer_Name = "Acme Co"
      ∧ (extractInvoice t_C2).Date = "01/02/2024"
      ∧ (extractInvoice t_C2).Total_Summary = 55) := by decide

/-- C2 amended: on the scenario text with the colon, the extraction yields
Sales_Invoice_No "4021", Customer_Name "Acme Co", Date "01/02/2024" and
Total_Summary 0 (the default); with the colon dropped after "Total", the
same text yields Total_Summary 55. -/
theorem C2_amended_end_to_end :
    ((extractInvoice t_C2).Sales_Invoice_No = "4021"
      ∧ (extractInvoice t_C2).Customer_Name = "Acme Co"
      ∧ (extractInvoice t_C2).Date = "01/02/2024"
      ∧ (extractInvoice t_C2).Total_Summary = 0)
  ∧ ((extractInvoice t_C2b).Sales_Invoice_No = "4021"
      ∧ (extractInvoice t_C2b).Customer_Name = "Acme Co"
      ∧ (extractInvoice t_C2b).Date = "01/02/2024"
      ∧ (extractInvoice t_C2b).Total_Summary = 55) := by decide

/-- C4 counterexample: a request whose image decodes and whose text yields
an invoice number aborts with a fatal error when the sheet append fails —
so a DecodeError is not the only fatal error. -/
theorem C4_counterexample :
    extract_invoice_data (some "No: 7") false = Except.error FatalError.sheetError
  ∧ FatalError.sheetError ≠ FatalError.decodeError :=
  ⟨rfl, by decide⟩

/-- C4 amended: the fatal errors are exactly a DecodeError on the initial
image and a persistence-sink (sheet authentication/append) failure; no
exception from a single field extraction or item row aborts the record —
with a functioning sink every decoded request returns a success result with
the best-effort (possibly defaulted) record. -/
theorem C4_amended_fatal_errors (t : String) (b : Bool) :
    extract_invoice_data none b = Except.error FatalError.decodeError
  ∧ extract_invoice_data (some t) true =
      Except.ok { status := "success", data := extractInvoice t, sheet_updated := true }
  ∧ (∀ e, extract_invoice_data (some t) b = Except.error e →
      e = FatalError.sheetError) := by
  refine ⟨rfl, rfl, fun e he => ?_⟩
  have he2 : (if b = false ∧ plannedAppends (extractInvoice t) ≠ [] then
      (Except.error FatalError.sheetError : Except FatalError ApiResponse)
    else Except.ok ⟨"success", extractInvoice t, true⟩) = Except.error e := he
  by_cases hbc : b = false ∧ plannedAppends (extractInvoice t) ≠ []
  · rw [if_pos hbc] at he2
    injection he2 with h3
    rw [← h3]
  · rw [if_neg hbc] at he2
    exact absurd he2 (by intro hcon; cases hcon)

/-- Witness for C4 amended, applying it where the hypothesis holds: the
error of a failed-sink run is the sheet error, and a missing decode is the
decode error. -/
theorem C4_amended_witness :
    FatalError.sheetError = FatalError.sheetError
  ∧ extract_invoice_data none true = Except.error FatalError.decodeError :=
  ⟨(C4_amended_fatal_errors "No: 7" false).2.2 FatalError.sheetError rfl,
   (C4_amended_fatal_errors "" true).1⟩

/-- C5: on a text whose first line is the well-formed item row
"1 Cheese Burger 2 pcs 3.50 7.00" and whose second row has a non-numeric
quantity ("1.2.3"), the row pattern matches both rows, the malformed row is
skipped without aborting, and the extracted items are exactly the one item
with name "Cheese Burger", quantity 2, unit price 3.5 and total 7. -/
theorem C5_line_item_scan :
    (findAll reItem t_C5).length = 2
  ∧ (extractInvoice t_C5).Items =
      [{ Item_No := "1", Item_Name := "Cheese Burger", Qty := 2, Unit := "pcs",
         Price := mkRat 7 2, Total_Price := 7 }] := by decide

/-- C6: on empty recognized text (an all-black or all-white image), every
field of the record equals its declared default, Items is empty, and the
endpoint returns a success response whatever the sink would do (no append
is even attempted). -/
theorem C6_degraded_to_defaults (b : Bool) :
    extractInvoice "" = defaultRecord
  ∧ extract_invoice_data (some "") b =
      Except.ok { status := "success", data := defaultRecord, sheet_updated := true }
  ∧ defaultRecord.Items = [] ∧ defaultRecord.Total_Summary = 0
  ∧ defaultRecord.Sales_Invoice_No = "N/A" := by
  cases b <;> exact ⟨by decide, rfl, rfl, rfl, rfl⟩

/-- C7: the pipeline after decode and OCR is a pure function — two runs on
the same decoded/recognized input with the same sink behaviour produce the
same result; there is no hidden randomness or run-to-run state. -/
theorem C7_deterministic (d1 d2 : Option String) (b : Bool) (h : d1 = d2) :
    extract_invoice_data d1 b = extract_invoice_data d2 b := by rw [h]

/-- Witness for C7 on a concrete input. -/
theorem C7_witness :
    extract_invoice_data (some t_C2) true = extract_invoice_data (some t_C2) true :=
  C7_deterministic (some t_C2) (some t_C2) true rfl

/-- C8 counterexample (on the spec-modelled Row Assembler): the cells at
y = 9 and y = 10 are within one quantization bucket of each other
(distance 1 < ROW_HEIGHT = 10) yet land in different rows, because integer
division puts them in different buckets — the "within one bucket of each
other implies same row" half of the claim is false. -/
theorem C8_counterexample :
    10 - 9 < ROW_HEIGHT
  ∧ rowKey ⟨0, 9⟩ ≠ rowKey ⟨0, 10⟩
  ∧ assembleRows [⟨0, 9⟩, ⟨0, 10⟩] = [(0, [⟨0, 9⟩]), (1, [⟨0, 10⟩])] := by
  decide

/-- C8 amended: cells land in the same row exactly when their quantized
keys (y divided by ROW_HEIGHT) agree; same key forces y-coordinates less
than one bucket-width apart (but cells within one bucket-width can straddle
a bucket boundary and split); cells at least one bucket-width apart never
merge; and within an assembled row, cells are ordered by ascending
x-coordinate. -/
theorem C8_amended_row_quantization (c1 c2 : CellBox) (cells : List CellBox) :
    (rowKey c1 = rowKey c2 →
      (c1.y : ℤ) - (c2.y : ℤ) < (ROW_HEIGHT : ℤ)
        ∧ (c2.y : ℤ) - (c1.y : ℤ) < (ROW_HEIGHT : ℤ))
  ∧ ((ROW_HEIGHT : ℤ) ≤ (c1.y : ℤ) - (c2.y : ℤ)
      ∨ (ROW_HEIGHT : ℤ) ≤ (c2.y : ℤ) - (c1.y : ℤ) → rowKey c1 ≠ rowKey c2)
  ∧ (∀ k row, (k, row) ∈ assembleRows cells → List.Pairwise cellLe row) := by
  have key : ∀ a b : CellBox, rowKey a = rowKey b →
      (a.y : ℤ) - (b.y : ℤ) < (ROW_HEIGHT : ℤ)
        ∧ (b.y : ℤ) - (a.y : ℤ) < (ROW_HEIGHT : ℤ) := by
    intro a b hk
    unfold rowKey ROW_HEIGHT at hk
    have hR : (ROW_HEIGHT : ℤ) = 10 := rfl
    rw [hR]
    omega
  refine ⟨key c1 c2, fun hd hk => ?_, fun k row hmem => ?_⟩
  · rcases key c1 c2 hk with ⟨ha, hb⟩
    omega
  · unfold assembleRows at hmem
    rcases List.mem_map.mp hmem with ⟨kk, _, heq⟩
    have hrow : row = (cells.filter (fun c => rowKey c == kk)).insertionSort cellLe := by
      cases heq; rfl
    rw [hrow]
    exact List.sorted_insertionSort cellLe _

/-- Witness for C8 amended: cells at y = 3 and y = 7 share a row key, so
their distance is below the bucket width; and the assembled row of two
same-bucket cells is x-sorted. -/
theorem C8_amended_witness :
    ((3 : ℤ) - (7 : ℤ) < (ROW_HEIGHT : ℤ) ∧ (7 : ℤ) - (3 : ℤ) < (ROW_HEIGHT : ℤ))
  ∧ List.Pairwise cellLe [⟨1, 2⟩, ⟨5, 0⟩] :=
  ⟨(C8_amended_row_quantization ⟨0, 3⟩ ⟨0, 7⟩ []).1 rfl,
   (C8_amended_row_quantization ⟨0, 0⟩ ⟨0, 0⟩ [⟨5, 0⟩, ⟨1, 2⟩]).2.2 0
     [⟨1, 2⟩, ⟨5, 0⟩] (by decide)⟩

/-- C9: the Sheet1 header row is sent to the sink exactly when the
invoice-number rule matched (the field is not the sentinel "N/A"), and the
Sheet2 appends are exactly one row per extracted item, in order, regardless
of the header outcome — in particular none when Items is empty. -/
theorem C9_append_policy (t : String) :
    ((∃ row, ("Sheet1", row) ∈ plannedAppends (extractInvoice t)) ↔
      (extractInvoice t).Sales_Invoice_No ≠ "N/A")
  ∧ (plannedAppends (extractInvoice t)).filter (fun p => p.1 == "Sheet2")
      = (extractInvoice t).Items.map
          (fun it => ("Sheet2", sheet2Row (extractInvoice t) it)) := by
  set r := extractInvoice t with hr
  have hmapfilter : ∀ l : List Item,
      (l.map (fun it => ("Sheet2", sheet2Row r it))).filter
          (fun p => p.1 == "Sheet2")
        = l.map (fun it => ("Sheet2", sheet2Row r it)) := by
    intro l
    induction l with
    | nil => rfl
    | cons a l ih =>
      show ("Sheet2", sheet2Row r a) ::
          (l.map (fun it => ("Sheet2", sheet2Row r it))).filter
            (fun p => p.1 == "Sheet2") = _
      rw [ih]
      rfl
  have hnomem : ∀ row : List PyVal,
      ("Sheet1", row) ∉ r.Items.map (fun it => ("Sheet2", sheet2Row r it)) := by
    intro row hmem
    rcases List.mem_map.mp hmem with ⟨it, _, heq⟩
    have : "Sheet2" = "Sheet1" := congrArg Prod.fst heq
    exact absurd this (by decide)
  unfold plannedAppends
  by_cases h : r.Sales_Invoice_No = "N/A"
  · rw [if_pos h]
    refine ⟨⟨fun hex => ?_, fun hne => absurd h hne⟩, ?_⟩
    · rcases hex with ⟨row, hrow⟩
      rw [List.nil_append] at hrow
      exact absurd hrow (hnomem row)
    · rw [List.nil_append]
      exact hmapfilter r.Items
  · rw [if_neg h]
    refine ⟨⟨fun _ => h, fun _ => ⟨sheet1Row r, List.mem_cons_self _ _⟩⟩, ?_⟩
    show (("Sheet1", sheet1Row r) :: r.Items.map
        (fun it => ("Sheet2", sheet2Row r it))).filter
          (fun p => p.1 == "Sheet2") = _
    show (r.Items.map (fun it => ("Sheet2", sheet2Row r it))).filter
        (fun p => p.1 == "Sheet2") = _
    exact hmapfilter r.Items

/-- Witness for C9 on a text whose invoice number is extracted: the header
row is among the planned appends. -/
theorem C9_witness :
    ∃ row, ("Sheet1", row) ∈ plannedAppends (extractInvoice "No: 7") :=
  (C9_append_policy "No: 7").1.mpr (by decide)

/-- C10: every success response of the endpoint reports sheet_updated =
true — the flag does not depend on whether any append was performed. -/
theorem C10_sheet_updated_always_true (t : String) (resp : ApiResponse)
    (h : extract_invoice_data (some t) true = Except.ok resp) :
    resp.sheet_updated = true := by
  have h2 : (Except.ok (⟨"success", extractInvoice t, true⟩ : ApiResponse) :
      Except FatalError ApiResponse) = Except.ok resp := h
  injection h2 with h3
  rw [← h3]

/-- Witness for C10 on the empty text, a run in which no append at all is
planned (header skipped, no items) and the response still reports
sheet_updated = true. -/
theorem C10_witness :
    plannedAppends (extractInvoice "") = []
  ∧ ApiResponse.sheet_updated ⟨"success", extractInvoice "", true⟩ = true :=
  ⟨by decide,
   C10_sheet_updated_always_true "" ⟨"success", extractInvoice "", true⟩ rfl⟩
